import Mathlib

/-!
Shallow embedding of the Arnold TX Converter conversion-orchestration logic
(tx_convert_gui.py): classifier, staleness checker, command builder,
conversion runner, and batch orchestrator, together with theorems checking
the specification against the embedded code.

Modelling conventions:
* file-system state is a map from paths to optional modification times;
* modification times are integers (only their ordering is used by the code);
* the external maketx process is an oracle from argument lists to either an
  exception description or a captured (exit code, stdout, stderr) triple;
* Python exceptions are Except.error values carrying the description text;
* Python str.strip and str.lower are modelled character-wise over ASCII.
-/

namespace TxConv

/-- ASCII whitespace recognised by the model of Python str.strip. -/
def isPyWS (c : Char) : Bool :=
  c == ' ' || c == '\t' || c == '\n' || c == '\r' || c == '\x0b' || c == '\x0c'

/-- Drop leading whitespace characters. -/
def dropWS : List Char → List Char
  | [] => []
  | c :: cs => if isPyWS c then dropWS cs else c :: cs

/-- Model of Python str.strip (both ends, ASCII whitespace). -/
def pyStrip (s : String) : String :=
  ⟨(dropWS ((dropWS s.data).reverse)).reverse⟩

/-- Model of Python str.lower (ASCII case folding). -/
def lowerStr (s : String) : String :=
  ⟨s.data.map Char.toLower⟩

/-- hasPfx n h is true iff n is a leading segment of h. -/
def hasPfx : List Char → List Char → Bool
  | [], _ => true
  | _ :: _, [] => false
  | a :: as, b :: bs => a == b && hasPfx as bs

/-- Occurrence of n as a contiguous segment of h (Python `in` on strings). -/
def hasSub (n : List Char) : List Char → Bool
  | [] => hasPfx n []
  | b :: bs => hasPfx n (b :: bs) || hasSub n bs

/-- Python substring test: needle in hay. -/
def strContains (hay needle : String) : Bool :=
  hasSub needle.data hay.data

/-- Python truthiness of an optional string: not None and nonempty. -/
def strTruthy : Option String → Bool
  | none => false
  | some s => !(s == "")

/-- A path, split into parent directory and final component, mirroring the
pathlib attributes the code reads (name, suffix). -/
structure FPath where
  dir : String
  fname : String
deriving DecidableEq

/-- Index of the last dot in a character list, if any. -/
def rfindDot : List Char → Option Nat
  | [] => none
  | c :: cs =>
    match rfindDot cs with
    | some i => some (i + 1)
    | none => if c = '.' then some 0 else none

/-- Index at which the pathlib suffix of a file name starts: the last dot,
provided it is neither the leading character nor the final one. -/
def suffixIdx (n : String) : Option Nat :=
  match rfindDot n.data with
  | some i => if 0 < i ∧ i + 1 < n.data.length then some i else none
  | none => none

/-- Model of pathlib Path.suffix on the final component. -/
def pathSuffix (n : String) : String :=
  match suffixIdx n with
  | some i => ⟨n.data.drop i⟩
  | none => ""

/-- Model of pathlib Path.stem on the final component. -/
def pathStem (n : String) : String :=
  match suffixIdx n with
  | some i => ⟨n.data.take i⟩
  | none => n

/-- Model of pathlib Path.with_suffix (total: the code only calls it with a
well-formed replacement suffix and a nonempty file name). -/
def withSuffix (p : FPath) (s : String) : FPath :=
  ⟨p.dir, pathStem p.fname ++ s⟩

/-- Rendering of a path as the string handed to the external process. -/
def FPath.toStr (p : FPath) : String :=
  p.dir ++ "/" ++ p.fname

/-- VALID_EXTS from the source. -/
def VALID_EXTS : List String :=
  [".png", ".jpg", ".jpeg", ".tif", ".tiff", ".exr", ".dds", ".tga", ".bmp", ".psd"]

/-- COLOR_TAGS from the source. -/
def COLOR_TAGS : List String :=
  ["srgb", "basecolor", "albedo", "color", "diffuse"]

/-- DSP_TAGS from the source. -/
def DSP_TAGS : List String :=
  ["dsp", "disp", "displacement", "zdisp", "height"]

/-- is_displacement from the source: any displacement tag occurs in the
lowercased final component. -/
def is_displacement (fname : FPath) : Bool :=
  DSP_TAGS.any (fun tag => strContains (lowerStr fname.fname) tag)

/-- is_color from the source: never color when displacement, otherwise any
color tag occurs in the lowercased final component. -/
def is_color (fname : FPath) : Bool :=
  if is_displacement fname then false
  else COLOR_TAGS.any (fun tag => strContains (lowerStr fname.fname) tag)

/-- The file system as seen by the code: each path either exists with a
last-modified time or does not exist. -/
structure FS where
  mtime : FPath → Option Int

/-- Model of Path.stat().st_mtime: raises (Except.error) when the path does
not exist. -/
def statMtime (fs : FS) (p : FPath) : Except String Int :=
  match fs.mtime p with
  | some t => Except.ok t
  | none => Except.error ("No such file or directory: " ++ p.fname)

/-- needs_conversion from the source: true when dst does not exist, else the
source modification time is strictly greater than the destination one.
Statting a missing src propagates as an exception. -/
def needs_conversion (fs : FS) (src dst : FPath) : Except String Bool :=
  match fs.mtime dst with
  | none => Except.ok true
  | some dmt =>
    match statMtime fs src with
    | Except.error e => Except.error e
    | Except.ok smt => Except.ok (decide (smt > dmt))

/-- build_maketx_cmd from the source: the ordered maketx argument list. -/
def build_maketx_cmd (src : FPath) (ocio_path : Option String) (verbose : Bool)
    (is_col : Bool) (is_dsp : Bool) (maketx_path : String) : List String :=
  [maketx_path, FPath.toStr src] ++
    (if strTruthy ocio_path then ["--colorconfig", ocio_path.getD ""] else []) ++
    ["--opaque-detect", "--constant-color-detect", "--monochrome-detect",
      "--fixnan", "box3", "-u", "--filter", "lanczos3",
      "--attrib", "tiff:half", "1", "--unpremult", "--oiio"] ++
    ["--colorconvert"] ++
    (if is_col then ["Utility - sRGB - Texture", "ACES - ACEScg"]
      else ["Utility - Raw", "ACES - ACEScg"]) ++
    (if is_dsp then ["-d", "float"] else ["-d", "half"]) ++
    (if verbose then ["-v"] else []) ++
    ["--threads", "1"]

/-- Captured result of a finished external process: exit code, the text the
process wrote to stdout, and the text it wrote to stderr. -/
structure ProcResult where
  returncode : Int
  stdout : String
  stderr : String
deriving DecidableEq

/-- The external process as an oracle: an argument list either raises or
yields a process result. -/
abbrev ExecOracle := List String → Except String ProcResult

/-- A conversion outcome: (source path, success flag, message). -/
abbrev Outcome := FPath × Bool × String

/-- Destination path computed by convert_one: the source with .tx appended
to its suffix, or the source itself when it is already a .tx. -/
def dstOf (src : FPath) : FPath :=
  if lowerStr (pathSuffix src.fname) ≠ ".tx" then
    withSuffix src (pathSuffix src.fname ++ ".tx")
  else src

/-- Body of convert_one up to the try/except wrapper: the skip checks, the
classification, the command construction and the external invocation.
Exceptions escape as Except.error. -/
def convert_one_body (fs : FS) (exec : ExecOracle) (src : FPath)
    (ocio_path : Option String) (verbose : Bool) (maketx_path : String) :
    Except String Outcome :=
  if lowerStr (pathSuffix src.fname) = ".tx" then
    Except.ok (src, false, "Already a .tx; skipping.")
  else
    match needs_conversion fs src (dstOf src) with
    | Except.error e => Except.error e
    | Except.ok nc =>
      if !nc then
        Except.ok (src, false,
          "Up-to-date .tx exists: " ++ ((dstOf src).fname ++ "; skipping."))
      else
        match exec (build_maketx_cmd src ocio_path verbose (is_color src)
            (is_displacement src) maketx_path) with
        | Except.error e => Except.error e
        | Except.ok proc =>
          if proc.returncode = 0 then
            let out_msg :=
              if verbose && !(proc.stdout == "") then pyStrip proc.stdout else ""
            Except.ok (src, true, if out_msg ≠ "" then out_msg else "OK")
          else
            let err := pyStrip proc.stderr
            Except.ok (src, false,
              "maketx failed: " ++ (if err ≠ "" then err else "Unknown error"))

/-- convert_one from the source: the body wrapped in the catch-all that turns
any exception into a failure outcome. -/
def convert_one (fs : FS) (exec : ExecOracle) (src : FPath)
    (ocio_path : Option String) (verbose : Bool) (maketx_path : String) : Outcome :=
  match convert_one_body fs exec src ocio_path verbose maketx_path with
  | Except.ok r => r
  | Except.error e => (src, false, "Exception: " ++ e)

/-- File enumeration from ConvertWorker.run: keep regular files whose
lowercased suffix is a recognised extension and, when a filter is supplied,
whose final component contains it (case-sensitively). The glob listing is
supplied as (path, is_file) pairs; the recursive and single-level variants
apply the same predicate to their respective listings. -/
def enumFiles (listing : List (FPath × Bool)) (filter_str : String) : List FPath :=
  (listing.filter (fun e =>
    e.2 && VALID_EXTS.any (fun ext => ext == lowerStr (pathSuffix e.1.fname)) &&
      (filter_str == "" || strContains e.1.fname filter_str))).map (fun e => e.1)

/-- Running totals kept by the completion loop of ConvertWorker.run. -/
structure Tally where
  done : Nat
  ok : Nat
  fail : Nat
deriving DecidableEq

/-- One iteration of the completion loop: count the outcome as done, then as
a success, a skip (success=false with the skip marker in the lowercased
message), or a failure. -/
def tallyStep (t : Tally) (o : Outcome) : Tally :=
  if o.2.1 then ⟨t.done + 1, t.ok + 1, t.fail⟩
  else if strContains (lowerStr o.2.2) "skip" then ⟨t.done + 1, t.ok, t.fail⟩
  else ⟨t.done + 1, t.ok, t.fail + 1⟩

/-- Success outcomes, as classified by the completion loop. -/
def isSuccessOutcome (o : Outcome) : Bool := o.2.1

/-- Skip outcomes: success=false and the message contains the skip marker. -/
def isSkipOutcome (o : Outcome) : Bool :=
  !o.2.1 && strContains (lowerStr o.2.2) "skip"

/-- Failure outcomes: success=false and no skip marker in the message. -/
def isFailOutcome (o : Outcome) : Bool :=
  !o.2.1 && !(strContains (lowerStr o.2.2) "skip")

/-- The completion-draining loop of ConvertWorker.run: before tallying each
completed outcome the cancellation flag is read; a set flag exits the loop.
The flag is modelled as the value the loop reads at each iteration index. -/
def drainLoop (cancelled : Nat → Bool) : List Outcome → Nat → Tally → Tally
  | [], _, t => t
  | o :: rest, i, t =>
    if cancelled i then t
    else drainLoop cancelled rest (i + 1) (tallyStep t o)

/-- Ambient system state read by ConvertWorker.run: existence checks for the
string paths it validates, the OCIO environment variable, the glob listing
(or the exception it raised), the file system and the process oracle. -/
structure SysEnv where
  pathExists : String → Bool
  pathIsFile : String → Bool
  envOCIO : Option String
  listingErr : Option String
  listing : List (FPath × Bool)
  fs : FS
  exec : ExecOracle

/-- The run configuration held by a ConvertWorker. -/
structure WorkerCfg where
  filter_str : String
  ocio_file : Option String
  verbose : Bool
  maketx_path : String

/-- Result of a worker run: a fatal message, or the final (ok, fail) tally. -/
inductive RunResult where
  | fatal (msg : String)
  | finished (ok fail : Nat)
deriving DecidableEq

/-- OCIO resolution from ConvertWorker.run: a truthy explicit file must be a
file (else fatal); otherwise the stripped OCIO environment variable must be
nonempty (else fatal) and must exist (else fatal). -/
def resolveOcio (env : SysEnv) (ocio_file : Option String) : Except String String :=
  if strTruthy ocio_file then
    if env.pathIsFile (ocio_file.getD "") then Except.ok (ocio_file.getD "")
    else Except.error ("OCIO file not found: " ++ ocio_file.getD "")
  else
    if pyStrip (env.envOCIO.getD "") = "" then
      Except.error "No OCIO specified and $OCIO is not set."
    else if env.pathExists (pyStrip (env.envOCIO.getD "")) then
      Except.ok (pyStrip (env.envOCIO.getD ""))
    else
      Except.error ("$OCIO points to non-existent file: " ++ pyStrip (env.envOCIO.getD ""))

/-- The outcomes produced by the worker pool: one convert_one call per
enumerated file. -/
def batchOutcomes (env : SysEnv) (cfg : WorkerCfg) (ocio : String)
    (files : List FPath) : List Outcome :=
  files.map (fun p => convert_one env.fs env.exec p (some ocio) cfg.verbose cfg.maketx_path)

/-- ConvertWorker.run: validate the maketx path, resolve OCIO, enumerate
files, dispatch every file to the pool, drain completions (in the completion
order given by reorder) into the tally, and emit the final result. The
second component is the list of dispatched tasks: empty on every fatal. -/
def workerRun (env : SysEnv) (cfg : WorkerCfg) (cancelled : Nat → Bool)
    (reorder : List Outcome → List Outcome) : RunResult × List FPath :=
  if cfg.maketx_path = "" ∨ env.pathExists cfg.maketx_path = false then
    (RunResult.fatal "maketx.exe not set or not found. Please select the path in the GUI.", [])
  else
    match resolveOcio env cfg.ocio_file with
    | Except.error msg => (RunResult.fatal msg, [])
    | Except.ok ocio =>
      match env.listingErr with
      | some e => (RunResult.fatal ("Failed to list files: " ++ e), [])
      | none =>
        let files := enumFiles env.listing cfg.filter_str
        if files.length = 0 then
          (RunResult.fatal "No valid textures in folder (check extensions or filter).", [])
        else
          let t := drainLoop cancelled (reorder (batchOutcomes env cfg ocio files)) 0 ⟨0, 0, 0⟩
          (RunResult.finished t.ok t.fail, files)

/-- Concrete source path used by witness instantiations. -/
def exSrc : FPath := ⟨"d", "a.png"⟩

/-- Concrete path whose suffix is already .tx (up to case). -/
def txSrc : FPath := ⟨"d", "b.TX"⟩

/-- Concrete empty file system: no path exists. -/
def exFS : FS := ⟨fun _ => none⟩

/-- Concrete file system where only the destination a.png.tx exists. -/
def exFS2 : FS :=
  ⟨fun p => if p.fname == "a.png.tx" then some 5 else none⟩

/-- Concrete file system where s.png and s.png.tx carry equal timestamps. -/
def exFS4 : FS :=
  ⟨fun p =>
    if p.fname == "s.png" then some 4
    else if p.fname == "s.png.tx" then some 4
    else none⟩

/-- Concrete oracle: every invocation exits 0 with stdout " x \n". -/
def exExecOK : ExecOracle := fun _ => Except.ok ⟨0, " x \n", ""⟩

/-- Concrete oracle: every invocation raises. -/
def exExecErr : ExecOracle := fun _ => Except.error "boom"

/-- Concrete environment for the batch-conservation witness. -/
def wEnv : SysEnv where
  pathExists := fun _ => true
  pathIsFile := fun _ => true
  envOCIO := none
  listingErr := none
  listing := [(⟨"r", "a.png"⟩, true)]
  fs := exFS
  exec := exExecErr

/-- Concrete configuration for the batch-conservation witness. -/
def wCfg : WorkerCfg := ⟨"", some "c.ocio", false, "mk"⟩

/-- Concrete environment whose explicit OCIO path is not a file. -/
def w8Env : SysEnv where
  pathExists := fun _ => true
  pathIsFile := fun _ => false
  envOCIO := none
  listingErr := none
  listing := []
  fs := exFS
  exec := exExecErr

/-- Concrete configuration supplying an explicit (missing) OCIO path. -/
def w8Cfg : WorkerCfg := ⟨"", some "missing.ocio", false, "mk"⟩

/-- Concrete outcome list for the cancellation witness. -/
def wOutcomes : List Outcome :=
  [(⟨"r", "a.png"⟩, true, "OK"),
   (⟨"r", "b.png"⟩, false, "maketx failed: x"),
   (⟨"r", "c.png"⟩, true, "OK"),
   (⟨"r", "d.png"⟩, false, "Up-to-date .tx exists: d.png.tx; skipping.")]

theorem hasPfx_iff (n h : List Char) : hasPfx n h = true ↔ ∃ r, h = n ++ r := by
  induction n generalizing h with
  | nil => simp [hasPfx]
  | cons a as ih =>
    cases h with
    | nil => simp [hasPfx]
    | cons b bs =>
      simp only [hasPfx, Bool.and_eq_true, beq_iff_eq, ih, List.cons_append,
        List.cons.injEq]
      constructor
      · rintro ⟨rfl, r, rfl⟩
        exact ⟨r, rfl, rfl⟩
      · rintro ⟨r, rfl, rfl⟩
        exact ⟨rfl, r, rfl⟩

theorem hasSub_iff (n h : List Char) :
    hasSub n h = true ↔ ∃ l₁ l₂, h = l₁ ++ n ++ l₂ := by
  induction h with
  | nil =>
    rw [hasSub, hasPfx_iff]
    constructor
    · rintro ⟨r, hr⟩
      rcases List.append_eq_nil.mp hr.symm with ⟨h1, h2⟩
      exact ⟨[], [], by simp [h1]⟩
    · rintro ⟨l₁, l₂, he⟩
      rcases List.append_eq_nil.mp he.symm with ⟨h1, h2⟩
      rcases List.append_eq_nil.mp h1 with ⟨h3, h4⟩
      exact ⟨[], by simp [h4]⟩
  | cons b bs ih =>
    rw [hasSub, Bool.or_eq_true, hasPfx_iff, ih]
    constructor
    · rintro (⟨r, hr⟩ | ⟨l₁, l₂, he⟩)
      · exact ⟨[], r, by simp [hr]⟩
      · exact ⟨b :: l₁, l₂, by simp [he]⟩
    · rintro ⟨l₁, l₂, he⟩
      cases l₁ with
      | nil => exact Or.inl ⟨l₂, by simpa using he⟩
      | cons c l₁ =>
        have hb : b = c ∧ bs = l₁ ++ n ++ l₂ := by simpa using he
        exact Or.inr ⟨l₁, l₂, hb.2⟩

theorem strContains_iff (hay needle : String) :
    strContains hay needle = true ↔
      ∃ l₁ l₂, hay.data = l₁ ++ needle.data ++ l₂ := by
  rw [strContains, hasSub_iff]

/-- C2: a file name containing any displacement tag (as a substring of its
lowercased form) classifies as displacement and never as color, even in the
presence of color tags; a name containing no displacement tag classifies as
color exactly when it contains some color tag. -/
theorem classifier_displacement_priority (p : FPath) :
    ((∃ t ∈ DSP_TAGS, ∃ l₁ l₂, (lowerStr p.fname).data = l₁ ++ t.data ++ l₂) →
        is_displacement p = true ∧ is_color p = false) ∧
    ((¬ ∃ t ∈ DSP_TAGS, ∃ l₁ l₂, (lowerStr p.fname).data = l₁ ++ t.data ++ l₂) →
        (is_color p = true ↔
          ∃ t ∈ COLOR_TAGS, ∃ l₁ l₂, (lowerStr p.fname).data = l₁ ++ t.data ++ l₂)) := by
  have hd : is_displacement p = true ↔
      ∃ t ∈ DSP_TAGS, ∃ l₁ l₂, (lowerStr p.fname).data = l₁ ++ t.data ++ l₂ := by
    simp [is_displacement, List.any_eq_true, strContains_iff]
  constructor
  · intro h
    have h1 := hd.mpr h
    exact ⟨h1, by simp [is_color, h1]⟩
  · intro h
    have h1 : is_displacement p = false := by
      cases hv : is_displacement p
      · rfl
      · exact absurd (hd.mp hv) h
    simp [is_color, h1, List.any_eq_true, strContains_iff]

/-- C2 witness: the name Rock_Height_BaseColor.png contains the displacement
tag height, so it is displacement and not color despite its color tags. -/
theorem classifier_displacement_priority_witness :
    is_displacement ⟨"", "Rock_Height_BaseColor.png"⟩ = true ∧
    is_color ⟨"", "Rock_Height_BaseColor.png"⟩ = false :=
  (classifier_displacement_priority ⟨"", "Rock_Height_BaseColor.png"⟩).1
    ⟨"height", by decide, "rock_".data, "_basecolor.png".data, by decide⟩

/-- C3: staleness policy — a missing destination always needs conversion;
with both files present, conversion is needed exactly when the source
modification time is strictly greater, and equal timestamps report
up-to-date (no reconversion). -/
theorem staleness_policy (fs : FS) (src dst : FPath) :
    (fs.mtime dst = none → needs_conversion fs src dst = Except.ok true) ∧
    (∀ smt dmt : Int, fs.mtime src = some smt → fs.mtime dst = some dmt →
        needs_conversion fs src dst = Except.ok (decide (smt > dmt))) ∧
    (∀ smt : Int, fs.mtime src = some smt → fs.mtime dst = some smt →
        needs_conversion fs src dst = Except.ok false) := by
  refine ⟨?_, ?_, ?_⟩
  · intro h
    simp [needs_conversion, h]
  · intro smt dmt hs hd
    simp [needs_conversion, statMtime, hs, hd]
  · intro smt hs hd
    simp [needs_conversion, statMtime, hs, hd]

/-- C3 witness: with equal timestamps on s.png and s.png.tx the checker
reports no conversion needed. -/
theorem staleness_policy_witness :
    needs_conversion exFS4 ⟨"d", "s.png"⟩ ⟨"d", "s.png.tx"⟩ = Except.ok false :=
  (staleness_policy exFS4 ⟨"d", "s.png"⟩ ⟨"d", "s.png.tx"⟩).2.2 4 rfl rfl

/-- C4: the argument list always carries the depth pair -d float for
displacement inputs and -d half otherwise, and the colorconvert pair
Utility - sRGB - Texture / ACES - ACEScg for color-managed inputs and
Utility - Raw / ACES - ACEScg otherwise; as a function it yields identical
lists on identical inputs. -/
theorem command_builder_flags (src : FPath) (ocio : Option String)
    (verbose is_col is_dsp : Bool) (mk : String) :
    (is_dsp = true → ∃ l₁ l₂,
        build_maketx_cmd src ocio verbose is_col is_dsp mk = l₁ ++ ["-d", "float"] ++ l₂) ∧
    (is_dsp = false → ∃ l₁ l₂,
        build_maketx_cmd src ocio verbose is_col is_dsp mk = l₁ ++ ["-d", "half"] ++ l₂) ∧
    (is_col = true → ∃ l₁ l₂,
        build_maketx_cmd src ocio verbose is_col is_dsp mk =
          l₁ ++ ["Utility - sRGB - Texture", "ACES - ACEScg"] ++ l₂) ∧
    (is_col = false → ∃ l₁ l₂,
        build_maketx_cmd src ocio verbose is_col is_dsp mk =
          l₁ ++ ["Utility - Raw", "ACES - ACEScg"] ++ l₂) ∧
    build_maketx_cmd src ocio verbose is_col is_dsp mk =
      build_maketx_cmd src ocio verbose is_col is_dsp mk := by
  refine ⟨?_, ?_, ?_, ?_, rfl⟩
  · rintro rfl
    exact ⟨[mk, FPath.toStr src] ++
        (if strTruthy ocio then ["--colorconfig", ocio.getD ""] else []) ++
        ["--opaque-detect", "--constant-color-detect", "--monochrome-detect",
          "--fixnan", "box3", "-u", "--filter", "lanczos3",
          "--attrib", "tiff:half", "1", "--unpremult", "--oiio"] ++
        ["--colorconvert"] ++
        (if is_col then ["Utility - sRGB - Texture", "ACES - ACEScg"]
          else ["Utility - Raw", "ACES - ACEScg"]),
      (if verbose then ["-v"] else []) ++ ["--threads", "1"],
      by simp [build_maketx_cmd]⟩
  · rintro rfl
    exact ⟨[mk, FPath.toStr src] ++
        (if strTruthy ocio then ["--colorconfig", ocio.getD ""] else []) ++
        ["--opaque-detect", "--constant-color-detect", "--monochrome-detect",
          "--fixnan", "box3", "-u", "--filter", "lanczos3",
          "--attrib", "tiff:half", "1", "--unpremult", "--oiio"] ++
        ["--colorconvert"] ++
        (if is_col then ["Utility - sRGB - Texture", "ACES - ACEScg"]
          else ["Utility - Raw", "ACES - ACEScg"]),
      (if verbose then ["-v"] else []) ++ ["--threads", "1"],
      by simp [build_maketx_cmd]⟩
  · rintro rfl
    exact ⟨[mk, FPath.toStr src] ++
        (if strTruthy ocio then ["--colorconfig", ocio.getD ""] else []) ++
        ["--opaque-detect", "--constant-color-detect", "--monochrome-detect",
          "--fixnan", "box3", "-u", "--filter", "lanczos3",
          "--attrib", "tiff:half", "1", "--unpremult", "--oiio"] ++
        ["--colorconvert"],
      (if is_dsp then ["-d", "float"] else ["-d", "half"]) ++
        (if verbose then ["-v"] else []) ++ ["--threads", "1"],
      by simp [build_maketx_cmd]⟩
  · rintro rfl
    exact ⟨[mk, FPath.toStr src] ++
        (if strTruthy ocio then ["--colorconfig", ocio.getD ""] else []) ++
        ["--opaque-detect", "--constant-color-detect", "--monochrome-detect",
          "--fixnan", "box3", "-u", "--filter", "lanczos3",
          "--attrib", "tiff:half", "1", "--unpremult", "--oiio"] ++
        ["--colorconvert"],
      (if is_dsp then ["-d", "float"] else ["-d", "half"]) ++
        (if verbose then ["-v"] else []) ++ ["--threads", "1"],
      by simp [build_maketx_cmd]⟩

/-- C4 witness: a displacement input yields an argument list containing the
-d float pair. -/
theorem command_builder_flags_witness :
    ∃ l₁ l₂, build_maketx_cmd exSrc none false false true "mk" =
      l₁ ++ ["-d", "float"] ++ l₂ :=
  (command_builder_flags exSrc none false false true "mk").1 rfl

theorem strData_append (a b : String) : (a ++ b).data = a.data ++ b.data := by
  cases a
  cases b
  rfl

theorem string_ne_of_head (s t : String)
    (h : s.data.head? ≠ t.data.head?) : s ≠ t :=
  fun e => h (congrArg (fun u => u.data.head?) e)

theorem pyStrip_of_empty (s : String) (h : s = "") : pyStrip s = "" := by
  rw [h]
  rfl

/-- C5: the runner returns the already-converted skip outcome for a source
whose lowercased suffix is .tx, and the up-to-date skip outcome when the
staleness checker reports no conversion needed — in both cases for every
process oracle, so no external process influences (or is needed for) the
result. -/
theorem runner_skip_no_exec (fs : FS) (exec : ExecOracle) (src : FPath)
    (ocio : Option String) (v : Bool) (mk : String) :
    (lowerStr (pathSuffix src.fname) = ".tx" →
        convert_one fs exec src ocio v mk = (src, false, "Already a .tx; skipping.")) ∧
    (lowerStr (pathSuffix src.fname) ≠ ".tx" →
        needs_conversion fs src (dstOf src) = Except.ok false →
        convert_one fs exec src ocio v mk =
          (src, false, "Up-to-date .tx exists: " ++ ((dstOf src).fname ++ "; skipping."))) := by
  constructor
  · intro h
    simp [convert_one, convert_one_body, h]
  · intro h hnc
    simp [convert_one, convert_one_body, h, hnc]

/-- C5 witness: a source named b.TX is skipped as already converted, with an
oracle that would raise if it were ever consulted. -/
theorem runner_skip_no_exec_witness :
    convert_one exFS exExecErr txSrc none false "mk" =
      (txSrc, false, "Already a .tx; skipping.") :=
  (runner_skip_no_exec exFS exExecErr txSrc none false "mk").1 (by decide)

/-- C7: convert_one is the body wrapped in a catch-all — a body that returns
normally is passed through, and a body that raises any exception yields a
failure outcome carrying the fault description; no exception escapes to the
caller (convert_one is a total function into outcomes). -/
theorem runner_catches_exceptions (fs : FS) (exec : ExecOracle) (src : FPath)
    (ocio : Option String) (v : Bool) (mk : String) :
    (∀ r, convert_one_body fs exec src ocio v mk = Except.ok r →
        convert_one fs exec src ocio v mk = r) ∧
    (∀ e, convert_one_body fs exec src ocio v mk = Except.error e →
        convert_one fs exec src ocio v mk = (src, false, "Exception: " ++ e)) := by
  constructor
  · intro r hr
    simp [convert_one, hr]
  · intro e he
    simp [convert_one, he]

/-- C7 witness: with the destination a.png.tx present but the source a.png
missing, statting the source raises, and the runner reports the fault as a
failure outcome instead of propagating. -/
theorem runner_catches_exceptions_witness :
    convert_one exFS2 exExecOK exSrc none false "mk" =
      (exSrc, false, "Exception: " ++ "No such file or directory: a.png") :=
  (runner_catches_exceptions exFS2 exExecOK exSrc none false "mk").2
    "No such file or directory: a.png" rfl

/-- C6 counterexample: with verbose on, exit status 0 and captured stdout
" x \n" (nonempty), the message is the stripped text "x", not the captured
standard output itself — refuting the claim that the message is the captured
stdout whenever verbose is on and the output is nonempty. -/
theorem runner_exit_status_counterexample :
    exExecOK (build_maketx_cmd exSrc (some "c.ocio") true (is_color exSrc)
        (is_displacement exSrc) "mk") = Except.ok ⟨0, " x \n", ""⟩ ∧
    convert_one exFS exExecOK exSrc (some "c.ocio") true "mk" = (exSrc, true, "x") ∧
    (" x \n" : String) ≠ "x" := by
  refine ⟨rfl, ?_, by decide⟩
  decide

/-- C6 as amended: on exit status 0 the outcome is a success whose message is
the whitespace-stripped captured stdout when verbose is on and that stripped
text is nonempty, and the generic "OK" otherwise; on a nonzero exit status
the outcome is a failure whose message carries the stripped captured stderr,
or the generic "maketx failed: Unknown error" when the stripped stderr is
empty. -/
theorem runner_exit_status_messages (fs : FS) (exec : ExecOracle) (src : FPath)
    (ocio : Option String) (v : Bool) (mk : String) (proc : ProcResult)
    (h1 : lowerStr (pathSuffix src.fname) ≠ ".tx")
    (h2 : needs_conversion fs src (dstOf src) = Except.ok true)
    (h3 : exec (build_maketx_cmd src ocio v (is_color src) (is_displacement src) mk) =
        Except.ok proc) :
    (proc.returncode = 0 → v = true → pyStrip proc.stdout ≠ "" →
        convert_one fs exec src ocio v mk = (src, true, pyStrip proc.stdout)) ∧
    (proc.returncode = 0 → (v = false ∨ pyStrip proc.stdout = "") →
        convert_one fs exec src ocio v mk = (src, true, "OK")) ∧
    (proc.returncode ≠ 0 → pyStrip proc.stderr ≠ "" →
        convert_one fs exec src ocio v mk =
          (src, false, "maketx failed: " ++ pyStrip proc.stderr)) ∧
    (proc.returncode ≠ 0 → pyStrip proc.stderr = "" →
        convert_one fs exec src ocio v mk = (src, false, "maketx failed: Unknown error")) := by
  refine ⟨?_, ?_, ?_, ?_⟩
  · intro hrc hv hs
    subst hv
    have hne : proc.stdout ≠ "" := fun he => hs (pyStrip_of_empty _ he)
    simp [convert_one, convert_one_body, h1, h2, h3, hrc, hne, hs]
  · intro hrc hcase
    rcases hcase with hv | hs
    · subst hv
      simp [convert_one, convert_one_body, h1, h2, h3, hrc]
    · by_cases hne : proc.stdout = ""
      · simp [convert_one, convert_one_body, h1, h2, h3, hrc, hne]
      · simp [convert_one, convert_one_body, h1, h2, h3, hrc, hne, hs]
  · intro hrc hs
    simp [convert_one, convert_one_body, h1, h2, h3, hrc, hs]
  · intro hrc hs
    simp [convert_one, convert_one_body, h1, h2, h3, hrc, hs]

/-- C6 witness for the amended claim: verbose run, exit 0, stdout " x \n";
the message is the stripped stdout "x". -/
theorem runner_exit_status_messages_witness :
    convert_one exFS exExecOK exSrc (some "c.ocio") true "mk" = (exSrc, true, "x") := by
  have h := (runner_exit_status_messages exFS exExecOK exSrc (some "c.ocio") true "mk"
      ⟨0, " x \n", ""⟩ (by decide) rfl rfl).1 rfl rfl (by decide)
  exact h.trans (by decide)

theorem tallyStep_done (t : Tally) (o : Outcome) :
    (tallyStep t o).done = t.done + 1 := by
  simp only [tallyStep]
  split_ifs <;> rfl

theorem tallyStep_ok (t : Tally) (o : Outcome) :
    (tallyStep t o).ok = t.ok + (if isSuccessOutcome o then 1 else 0) := by
  simp only [tallyStep, isSuccessOutcome]
  split_ifs <;> simp

theorem tallyStep_fail (t : Tally) (o : Outcome) :
    (tallyStep t o).fail = t.fail + (if isFailOutcome o then 1 else 0) := by
  cases ho : o.2.1 <;> cases hs : strContains (lowerStr o.2.2) "skip" <;>
    simp [tallyStep, isFailOutcome, ho, hs]

theorem foldl_tallyStep_done (os : List Outcome) (t : Tally) :
    (os.foldl tallyStep t).done = t.done + os.length := by
  induction os generalizing t with
  | nil => simp
  | cons o rest ih =>
    rw [List.foldl_cons, ih, tallyStep_done, List.length_cons]
    omega

theorem foldl_tallyStep_ok (os : List Outcome) (t : Tally) :
    (os.foldl tallyStep t).ok = t.ok + os.countP isSuccessOutcome := by
  induction os generalizing t with
  | nil => simp
  | cons o rest ih =>
    rw [List.foldl_cons, ih, tallyStep_ok, List.countP_cons]
    cases hp : isSuccessOutcome o
    all_goals simp [hp]
    all_goals omega

theorem foldl_tallyStep_fail (os : List Outcome) (t : Tally) :
    (os.foldl tallyStep t).fail = t.fail + os.countP isFailOutcome := by
  induction os generalizing t with
  | nil => simp
  | cons o rest ih =>
    rw [List.foldl_cons, ih, tallyStep_fail, List.countP_cons]
    cases hp : isFailOutcome o
    all_goals simp [hp]
    all_goals omega

theorem outcome_trichotomy (os : List Outcome) :
    os.countP isSuccessOutcome + os.countP isFailOutcome +
      os.countP isSkipOutcome = os.length := by
  induction os with
  | nil => rfl
  | cons o rest ih =>
    rw [List.countP_cons, List.countP_cons, List.countP_cons, List.length_cons]
    cases ho : o.2.1 <;> cases hs : strContains (lowerStr o.2.2) "skip" <;>
      simp [isSuccessOutcome, isFailOutcome, isSkipOutcome, ho, hs] <;> omega

theorem drainLoop_no_cancel (os : List Outcome) (i : Nat) (t : Tally) :
    drainLoop (fun _ => false) os i t = os.foldl tallyStep t := by
  induction os generalizing i t with
  | nil => rfl
  | cons o rest ih => simp [drainLoop, List.foldl_cons, ih]

theorem drainLoop_cancel_take (cancelled : Nat → Bool) (os : List Outcome) :
    ∀ (k i : Nat) (t : Tally), cancelled (i + k) = true →
      (∀ j, j < k → cancelled (i + j) = false) →
      drainLoop cancelled os i t = (os.take k).foldl tallyStep t := by
  induction os with
  | nil =>
    intro k i t hk hlt
    simp [drainLoop]
  | cons o rest ih =>
    intro k i t hk hlt
    cases k with
    | zero =>
      have hc : cancelled i = true := by simpa using hk
      simp [drainLoop, hc]
    | succ m =>
      have hc : cancelled i = false := by simpa using hlt 0 (Nat.succ_pos m)
      have hk' : cancelled (i + 1 + m) = true := by
        have he : i + 1 + m = i + (m + 1) := by omega
        rw [he]
        exact hk
      have hlt' : ∀ j, j < m → cancelled (i + 1 + j) = false := by
        intro j hj
        have he : i + 1 + j = i + (j + 1) := by omega
        rw [he]
        exact hlt (j + 1) (by omega)
      simp [drainLoop, hc, List.take_succ_cons, List.foldl_cons,
        ih m (i + 1) (tallyStep t o) hk' hlt']

/-- C1: when the run reaches dispatch and the cancellation flag is never
observed set, the loop drains one outcome per enumerated file (in any
completion order), the tally counts every outcome, and success + failure +
skip outcomes (skips being non-success outcomes whose message carries the
skip marker, failures the remaining non-success outcomes) equal the number
of files. -/
theorem batch_outcome_conservation (env : SysEnv) (cfg : WorkerCfg)
    (reorder : List Outcome → List Outcome) (ocio : String)
    (hmk : ¬ (cfg.maketx_path = "" ∨ env.pathExists cfg.maketx_path = false))
    (hoc : resolveOcio env cfg.ocio_file = Except.ok ocio)
    (hls : env.listingErr = none)
    (hne : enumFiles env.listing cfg.filter_str ≠ [])
    (hperm : (reorder (batchOutcomes env cfg ocio (enumFiles env.listing cfg.filter_str))).Perm
        (batchOutcomes env cfg ocio (enumFiles env.listing cfg.filter_str))) :
    workerRun env cfg (fun _ => false) reorder =
      (RunResult.finished
        ((reorder (batchOutcomes env cfg ocio (enumFiles env.listing cfg.filter_str))).foldl
          tallyStep ⟨0, 0, 0⟩).ok
        ((reorder (batchOutcomes env cfg ocio (enumFiles env.listing cfg.filter_str))).foldl
          tallyStep ⟨0, 0, 0⟩).fail,
        enumFiles env.listing cfg.filter_str) ∧
    (reorder (batchOutcomes env cfg ocio (enumFiles env.listing cfg.filter_str))).length =
      (enumFiles env.listing cfg.filter_str).length ∧
    ((reorder (batchOutcomes env cfg ocio (enumFiles env.listing cfg.filter_str))).foldl
      tallyStep ⟨0, 0, 0⟩).done = (enumFiles env.listing cfg.filter_str).length ∧
    ((reorder (batchOutcomes env cfg ocio (enumFiles env.listing cfg.filter_str))).foldl
      tallyStep ⟨0, 0, 0⟩).ok =
      (reorder (batchOutcomes env cfg ocio (enumFiles env.listing cfg.filter_str))).countP
        isSuccessOutcome ∧
    ((reorder (batchOutcomes env cfg ocio (enumFiles env.listing cfg.filter_str))).foldl
      tallyStep ⟨0, 0, 0⟩).fail =
      (reorder (batchOutcomes env cfg ocio (enumFiles env.listing cfg.filter_str))).countP
        isFailOutcome ∧
    ((reorder (batchOutcomes env cfg ocio (enumFiles env.listing cfg.filter_str))).foldl
      tallyStep ⟨0, 0, 0⟩).ok +
      ((reorder (batchOutcomes env cfg ocio (enumFiles env.listing cfg.filter_str))).foldl
        tallyStep ⟨0, 0, 0⟩).fail +
      (reorder (batchOutcomes env cfg ocio (enumFiles env.listing cfg.filter_str))).countP
        isSkipOutcome =
      (enumFiles env.listing cfg.filter_str).length := by
  have hlen : (reorder (batchOutcomes env cfg ocio (enumFiles env.listing cfg.filter_str))).length =
      (enumFiles env.listing cfg.filter_str).length := by
    rw [hperm.length_eq, batchOutcomes, List.length_map]
  have hlz : ¬ (enumFiles env.listing cfg.filter_str).length = 0 := by
    simpa [List.length_eq_zero] using hne
  refine ⟨?_, hlen, ?_, ?_, ?_, ?_⟩
  · simp [workerRun, hmk, hoc, hls, hlz, drainLoop_no_cancel]
  · rw [foldl_tallyStep_done, hlen]
    simp
  · rw [foldl_tallyStep_ok]
    simp
  · rw [foldl_tallyStep_fail]
    simp
  · rw [foldl_tallyStep_ok, foldl_tallyStep_fail]
    have h1 := outcome_trichotomy
      (reorder (batchOutcomes env cfg ocio (enumFiles env.listing cfg.filter_str)))
    simp only [show (⟨0, 0, 0⟩ : Tally).ok = 0 from rfl,
      show (⟨0, 0, 0⟩ : Tally).fail = 0 from rfl]
    omega

/-- C1 witness: a single-file run with no cancellation finishes with one
outcome (a failure caused by the raising oracle) and 0 + 1 + 0 = 1. -/
theorem batch_outcome_conservation_witness :
    workerRun wEnv wCfg (fun _ => false) id =
      (RunResult.finished 0 1, [⟨"r", "a.png"⟩]) := by
  have h := batch_outcome_conservation wEnv wCfg id "c.ocio" (by decide) rfl rfl
    (by decide) (List.Perm.refl _)
  exact h.1.trans (by decide)

/-- C9: if the cancellation flag is first observed set at iteration k, the
completion loop tallies exactly the k outcomes drained before that
observation and exits; no later outcome is added, so the final tally counts
min k N outcomes. -/
theorem cancellation_truncates (cancelled : Nat → Bool) (os : List Outcome) (k : Nat)
    (hk : cancelled k = true) (hlt : ∀ j, j < k → cancelled j = false) :
    drainLoop cancelled os 0 ⟨0, 0, 0⟩ = (os.take k).foldl tallyStep ⟨0, 0, 0⟩ ∧
    (drainLoop cancelled os 0 ⟨0, 0, 0⟩).done = min k os.length := by
  have h := drainLoop_cancel_take cancelled os k 0 ⟨0, 0, 0⟩ (by simpa using hk)
    (by intro j hj; simpa using hlt j hj)
  refine ⟨h, ?_⟩
  rw [h, foldl_tallyStep_done]
  simp [List.length_take]

/-- C9 witness: a flag first set at iteration 2 over four completions tallies
only the first two outcomes (one success, one failure). -/
theorem cancellation_truncates_witness :
    drainLoop (fun j => decide (2 ≤ j)) wOutcomes 0 ⟨0, 0, 0⟩ = ⟨2, 1, 1⟩ ∧
    (drainLoop (fun j => decide (2 ≤ j)) wOutcomes 0 ⟨0, 0, 0⟩).done =
      min 2 wOutcomes.length := by
  have h := cancellation_truncates (fun j => decide (2 ≤ j)) wOutcomes 2
    (by decide) (by decide)
  exact ⟨h.1.trans (by decide), h.2⟩

/-- C8: with a valid maketx path, a truthy explicit OCIO path that is not a
file is fatal with its own message regardless of the environment variable
(explicit takes precedence); with no truthy explicit path, an unset (empty
after stripping) environment variable is one fatal condition and a set but
non-existent one is a second, distinct fatal condition; every such fatal run
dispatches no task. -/
theorem ocio_resolution_fatal (env : SysEnv) (cfg : WorkerCfg) (cancelled : Nat → Bool)
    (reorder : List Outcome → List Outcome)
    (hmk : ¬ (cfg.maketx_path = "" ∨ env.pathExists cfg.maketx_path = false)) :
    (strTruthy cfg.ocio_file = true → env.pathIsFile (cfg.ocio_file.getD "") = false →
        workerRun env cfg cancelled reorder =
          (RunResult.fatal ("OCIO file not found: " ++ cfg.ocio_file.getD ""), [])) ∧
    (strTruthy cfg.ocio_file = false → pyStrip (env.envOCIO.getD "") = "" →
        workerRun env cfg cancelled reorder =
          (RunResult.fatal "No OCIO specified and $OCIO is not set.", [])) ∧
    (strTruthy cfg.ocio_file = false → pyStrip (env.envOCIO.getD "") ≠ "" →
        env.pathExists (pyStrip (env.envOCIO.getD "")) = false →
        workerRun env cfg cancelled reorder =
          (RunResult.fatal
            ("$OCIO points to non-existent file: " ++ pyStrip (env.envOCIO.getD "")), [])) ∧
    (∀ s : String, ("No OCIO specified and $OCIO is not set." : String) ≠
        "$OCIO points to non-existent file: " ++ s) := by
  refine ⟨?_, ?_, ?_, ?_⟩
  · intro ht hf
    have hro : resolveOcio env cfg.ocio_file =
        Except.error ("OCIO file not found: " ++ cfg.ocio_file.getD "") := by
      simp [resolveOcio, ht, hf]
    simp [workerRun, hmk, hro]
  · intro ht hs
    have hro : resolveOcio env cfg.ocio_file =
        Except.error "No OCIO specified and $OCIO is not set." := by
      simp [resolveOcio, ht, hs]
    simp [workerRun, hmk, hro]
  · intro ht hs hx
    have hro : resolveOcio env cfg.ocio_file =
        Except.error ("$OCIO points to non-existent file: " ++ pyStrip (env.envOCIO.getD "")) := by
      simp [resolveOcio, ht, hs, hx]
    simp [workerRun, hmk, hro]
  · intro s
    have h2 : ("$OCIO points to non-existent file: " ++ s).data.head? = some '$' := by
      rw [strData_append]
      rfl
    exact string_ne_of_head _ _ (by rw [h2]; decide)

/-- C8 witness: an explicit OCIO path that is not a file is fatal with the
explicit-path message and dispatches nothing. -/
theorem ocio_resolution_fatal_witness :
    workerRun w8Env w8Cfg (fun _ => false) id =
      (RunResult.fatal "OCIO file not found: missing.ocio", []) := by
  have h := (ocio_resolution_fatal w8Env w8Cfg (fun _ => false) id (by decide)).1 rfl rfl
  exact h.trans (by decide)

theorem convert_one_shapes (fs : FS) (exec : ExecOracle) (src : FPath)
    (ocio : Option String) (v : Bool) (mk : String)
    (h : lowerStr (pathSuffix src.fname) ≠ ".tx") :
    (∃ m, convert_one fs exec src ocio v mk = (src, true, m)) ∨
    convert_one fs exec src ocio v mk =
      (src, false, "Up-to-date .tx exists: " ++ ((dstOf src).fname ++ "; skipping.")) ∨
    (∃ e, convert_one fs exec src ocio v mk = (src, false, "maketx failed: " ++ e)) ∨
    (∃ e, convert_one fs exec src ocio v mk = (src, false, "Exception: " ++ e)) := by
  cases hnc : needs_conversion fs src (dstOf src) with
  | error e =>
    exact Or.inr (Or.inr (Or.inr ⟨e, by simp [convert_one, convert_one_body, h, hnc]⟩))
  | ok nc =>
    cases nc with
    | false =>
      exact Or.inr (Or.inl (by simp [convert_one, convert_one_body, h, hnc]))
    | true =>
      cases hx : exec (build_maketx_cmd src ocio v (is_color src) (is_displacement src) mk) with
      | error e =>
        exact Or.inr (Or.inr (Or.inr ⟨e,
          by simp [convert_one, convert_one_body, h, hnc, hx]⟩))
      | ok proc =>
        by_cases hrc : proc.returncode = 0
        · have heq : convert_one fs exec src ocio v mk =
              (src, true,
                if v = true ∧ ¬proc.stdout = "" ∧ ¬pyStrip proc.stdout = "" then
                  (if v = true ∧ ¬proc.stdout = "" then pyStrip proc.stdout else "")
                else "OK") := by
            simp [convert_one, convert_one_body, h, hnc, hx, hrc]
          exact Or.inl ⟨_, heq⟩
        · have heq : convert_one fs exec src ocio v mk =
              (src, false, "maketx failed: " ++
                (if pyStrip proc.stderr = "" then "Unknown error" else pyStrip proc.stderr)) := by
            simp [convert_one, convert_one_body, h, hnc, hx, hrc]
          exact Or.inr (Or.inr (Or.inl ⟨_, heq⟩))

/-- C10: every file the orchestrator enumerates has a lowercased suffix in
the recognised extension set, .tx is not in that set, so the suffix is never
.tx and the already-a-.tx skip branch of the runner cannot fire for a
dispatched task, whatever the file system and the process oracle do. -/
theorem enumeration_excludes_tx (listing : List (FPath × Bool)) (fstr : String) (p : FPath)
    (hp : p ∈ enumFiles listing fstr) :
    lowerStr (pathSuffix p.fname) ∈ VALID_EXTS ∧
    (".tx" : String) ∉ VALID_EXTS ∧
    lowerStr (pathSuffix p.fname) ≠ ".tx" ∧
    ∀ (fs : FS) (exec : ExecOracle) (ocio : Option String) (v : Bool) (mk : String),
      convert_one fs exec p ocio v mk ≠ (p, false, "Already a .tx; skipping.") := by
  have hext : VALID_EXTS.any (fun ext => ext == lowerStr (pathSuffix p.fname)) = true := by
    simp only [enumFiles, List.mem_map] at hp
    obtain ⟨e, he, rfl⟩ := hp
    rw [List.mem_filter] at he
    have hpred := he.2
    simp only [Bool.and_eq_true] at hpred
    exact hpred.1.2
  have hmem : lowerStr (pathSuffix p.fname) ∈ VALID_EXTS := by
    rcases List.any_eq_true.mp hext with ⟨ext, hin, hbe⟩
    exact (beq_iff_eq.mp hbe) ▸ hin
  have hntx : (".tx" : String) ∉ VALID_EXTS := by decide
  have hneq : lowerStr (pathSuffix p.fname) ≠ ".tx" := by
    intro hcontra
    rw [hcontra] at hmem
    exact hntx hmem
  refine ⟨hmem, hntx, hneq, ?_⟩
  intro fs exec ocio v mk hcontr
  rcases convert_one_shapes fs exec p ocio v mk hneq with ⟨m, hm⟩ | hup | ⟨e, he⟩ | ⟨e, he⟩
  · rw [hm] at hcontr
    simp at hcontr
  · rw [hup] at hcontr
    have hmsg : "Up-to-date .tx exists: " ++ ((dstOf p).fname ++ "; skipping.") =
        "Already a .tx; skipping." := congrArg (fun x => x.2.2) hcontr
    have hh : ("Up-to-date .tx exists: " ++
        ((dstOf p).fname ++ "; skipping.")).data.head? = some 'U' := by
      rw [strData_append]
      rfl
    exact string_ne_of_head _ _ (by rw [hh]; decide) hmsg
  · rw [he] at hcontr
    have hmsg : "maketx failed: " ++ e = "Already a .tx; skipping." :=
      congrArg (fun x => x.2.2) hcontr
    have hh : ("maketx failed: " ++ e).data.head? = some 'm' := by
      rw [strData_append]
      rfl
    exact string_ne_of_head _ _ (by rw [hh]; decide) hmsg
  · rw [he] at hcontr
    have hmsg : "Exception: " ++ e = "Already a .tx; skipping." :=
      congrArg (fun x => x.2.2) hcontr
    have hh : ("Exception: " ++ e).data.head? = some 'E' := by
      rw [strData_append]
      rfl
    exact string_ne_of_head _ _ (by rw [hh]; decide) hmsg

/-- C10 witness: the enumerated file a.png has a recognised non-.tx suffix
and can never produce the already-a-.tx skip outcome. -/
theorem enumeration_excludes_tx_witness :
    lowerStr (pathSuffix "a.png") ∈ VALID_EXTS ∧
    (".tx" : String) ∉ VALID_EXTS ∧
    lowerStr (pathSuffix "a.png") ≠ ".tx" ∧
    ∀ (fs : FS) (exec : ExecOracle) (ocio : Option String) (v : Bool) (mk : String),
      convert_one fs exec ⟨"r", "a.png"⟩ ocio v mk ≠
        (⟨"r", "a.png"⟩, false, "Already a .tx; skipping.") :=
  enumeration_excludes_tx [(⟨"r", "a.png"⟩, true)] "" ⟨"r", "a.png"⟩ (by decide)

end TxConv
